import Mathlib

/-
Verification of the caching/freshness logic of `scripts/get-fonts.py`
(the fuller variant of the two scripts in the repository).

The script is embedded shallowly:

* the filesystem is an association list from paths to file contents,
  where a write shadows earlier entries;
* the outside world (local files reachable through `file://` URLs and the
  HTTP server answering `session.get`) is a record of functions;
* `datetime.now().strftime("%Y-%m-%d %H:%M:%S")` is threaded in as the
  `now : String` parameter;
* exceptions that escape a function are modelled with `Except`, exceptions
  that are caught locally (the `FileNotFoundError` around cache deletion)
  are modelled inside the function;
* `logging` calls are collected into a list of messages (the configured
  verbosity only filters display, it does not change control flow).
-/

set_option autoImplicit false
set_option linter.unusedVariables false

namespace GetFonts

/-- Contents of one file on disk: bytes (written with mode `'wb'`) or text
(written with mode `'w'`). -/
inductive FileData where
  | bin (bytes : List Nat)
  | txt (s : String)
deriving DecidableEq

/-- The local filesystem, as an association list from path to contents.
The head of the list is the most recent write to a path. -/
abbrev Fs := List (String × FileData)

/-- Look a path up; the first (most recent) entry wins. -/
def fsLookup : Fs → String → Option FileData
  | [], _ => none
  | (q, d) :: rest, p => if q = p then some d else fsLookup rest p

/-- `os.path.exists`. -/
def fsExists (fs : Fs) (p : String) : Bool :=
  (fsLookup fs p).isSome

/-- `open(p, 'wb').write` / `open(p, 'w').write`: overwrite the file. -/
def fsWrite (fs : Fs) (p : String) (d : FileData) : Fs :=
  (p, d) :: fs

/-- `os.remove` on a path that exists: drop every entry for it. -/
def fsRemove (fs : Fs) (p : String) : Fs :=
  fs.filter (fun e => decide (e.1 ≠ p))

/-- Reading a file opened in text mode: text comes back as written; bytes
are decoded codepoint-by-codepoint (this case never arises for files this
program wrote itself, since token files are always written as text). -/
def textOf : FileData → String
  | .txt s => s
  | .bin b => String.mk (b.map Char.ofNat)

/-- Reading a file opened in binary mode: bytes come back as written; text
is encoded codepoint-by-codepoint (this case never arises for files this
program wrote itself, since content files are always written as bytes). -/
def bytesOf : FileData → List Nat
  | .bin b => b
  | .txt s => s.toList.map Char.toNat

/-- A file visible through a `file://` URL: its stringified modification
time (`str(os.path.getmtime(...))`, e.g. `"1704067200.0"`) and its bytes. -/
structure LocalFile where
  mtimeStr : String
  content : List Nat
deriving DecidableEq

/-- What `self.session.get(url, headers)` comes back with, after redirect
handling inside `requests`: a status code, body bytes, and the optional
`Last-Modified` response header. -/
structure HttpResponse where
  status_code : Nat
  content : List Nat
  lastModified : Option String
deriving DecidableEq

/-- The world outside the script: local files addressed by `file://` URLs,
and the HTTP server's response as a function of the URL and of the
`If-Modified-Since` request header value (`none` both when the header is
absent and when its dict value is Python `None`, which `requests` does not
send -- the two are observably identical). -/
structure World where
  localFiles : String → Option LocalFile
  server : String → Option String → HttpResponse

/-- An exception escaping `Downloader._download`: `raise_for_status` on a
4xx/5xx response, or `FileNotFoundError` from opening a missing local
file. -/
inductive FetchError where
  | httpError (status : Nat)
  | fileNotFound
deriving DecidableEq

/-- The `DownloadResult` value class of the script. -/
structure DownloadResult where
  status_code : Nat
  content : Option (List Nat) := none
  last_modified : Option String := none
deriving DecidableEq

/-- `url.startswith('file://')`. -/
def isFileUrl (url : String) : Bool :=
  "file://".data.isPrefixOf url.data

/-- `url[7:]`: the local path behind a `file://` URL. -/
def stripScheme (url : String) : String :=
  String.mk (url.data.drop 7)

/-- `Downloader._download` (lines 44-56).

For a `file://` URL: if an `If-Modified-Since` value was supplied and it
equals the stringified modification time, report 304; otherwise read the
file and report 200 with its bytes and stringified modification time.
A dict value of Python `None` compares unequal to the mtime string, so it
behaves exactly like an absent header and both are `none` here.

For any other URL: perform the GET; `response.raise_for_status()` raises
on a 4xx/5xx status, and otherwise the status, body and `Last-Modified`
header are returned. -/
def _download (w : World) (url : String) (ims : Option String) :
    Except FetchError DownloadResult :=
  if isFileUrl url then
    match w.localFiles (stripScheme url) with
    | none => .error .fileNotFound
    | some f =>
      if ims = some f.mtimeStr then
        .ok { status_code := 304 }
      else
        .ok { status_code := 200, content := some f.content,
              last_modified := some f.mtimeStr }
  else
    let resp := w.server url ims
    if 400 ≤ resp.status_code then
      .error (.httpError resp.status_code)
    else
      .ok { status_code := resp.status_code, content := some resp.content,
            last_modified := resp.lastModified }

/-- Severity of a `logging` call that the script makes. -/
inductive Level where
  | info
  | warning
  | critical
deriving DecidableEq

/-- One emitted log line. -/
structure LogMsg where
  level : Level
  msg : String
deriving DecidableEq

/-- The command-line flags that reach `Downloader.download` and the main
loop (`verbose`/`quiet` only pick the display threshold and `config`/`data`
only pick paths, so they are left out). -/
structure Opts where
  force : Bool := false
  no_update : Bool := false
  delete_cache : Bool := false
deriving DecidableEq

/-- Lines 59-67 of `Downloader.download`: when both sidecar files exist,
load them as the candidate cache entry; the first component is
`cached_data`, the second `lastmod_cache`. -/
def loadCache (fs : Fs) (filename filename_lastmod : String) :
    Option DownloadResult × Option String :=
  match fsLookup fs filename, fsLookup fs filename_lastmod with
  | some c, some t =>
    (some { status_code := 200, content := some (bytesOf c),
            last_modified := some (textOf t) }, some (textOf t))
  | _, _ => (none, none)

/-- `Downloader.download` (lines 58-101). `now` stands for the value of
`datetime.now().strftime("%Y-%m-%d %H:%M:%S")` at the write on line 92;
`fonts_dir` is a parameter of the Python function that its body never
uses. The returned triple is the filesystem after the call, the log lines
emitted, and the Python return value (`none` standing for Python `None`,
returned on an unexpected status code). An exception from `_download`
propagates as `.error`. On the 200 path the script writes the body bytes
to `filename` and the current wall-clock string to `filename_lastmod`
(`response.content` is always present on that path, so the `getD` default
is never taken). -/
def download (w : World) (url name : String) (opts : Opts) (now : String)
    (fonts_dir : String) (fs : Fs) (filename filename_lastmod : String) :
    Except FetchError (Fs × List LogMsg × Option DownloadResult) :=
  let cache := loadCache fs filename filename_lastmod
  if opts.no_update && cache.1.isSome then
    .ok (fs, [], cache.1)
  else
    let headers : Option String := if opts.force then none else cache.2
    match _download w url headers with
    | .error e => .error e
    | .ok response =>
      if response.status_code = 200 then
        let body := response.content.getD []
        .ok (fsWrite (fsWrite fs filename (.bin body)) filename_lastmod (.txt now),
             [⟨.info, "  Download complete (" ++ toString body.length ++ " bytes)"⟩],
             some response)
      else if response.status_code = 304 then
        .ok (fs, [], cache.1)
      else
        .ok (fs,
             [⟨.critical, "  Unexpected response code (" ++ toString response.status_code⟩,
              ⟨.critical, "  Content " ++ name ++ " was not downloaded"⟩],
             none)

/-- One entry of `config["sources"]`: its key and its `url` field. The
optional `archive` instructions only drive zip extraction inside the
conversion step, which is modelled as a single opaque action below, so
they are not carried. -/
structure Source where
  name : String
  url : String
deriving DecidableEq

/-- An externally visible action of the main loop other than a filesystem
write or a log line: running the glyph conversion (lines 168-179: clearing
and recreating the working directory, the `fontnik` subprocess on
`filename`, and any zip extraction). The working directory
`fonts_dir/<name>/` is disjoint from the sidecar files
`fonts_dir/<basename>`, so the conversion's writes do not touch the
modelled cache files; the subprocess is assumed to succeed (its failure
aborts the whole run and no claim depends on it). -/
inductive Event where
  | convert (name filename : String)
deriving DecidableEq

/-- The characters after the last `/`. -/
def basenameAux : List Char → List Char → List Char
  | cur, [] => cur.reverse
  | cur, c :: rest => if c = '/' then basenameAux [] rest else basenameAux (c :: cur) rest

/-- `os.path.basename(urlparse(url).path)` for URLs without query,
fragment or parameters: everything after the last slash. -/
def urlBasename (url : String) : String :=
  String.mk (basenameAux [] url.data)

/-- Line 157: `os.path.join(fonts_dir, os.path.basename(urlparse(url).path))`. -/
def filenameFor (fontsDir url : String) : String :=
  fontsDir ++ "/" ++ urlBasename url

/-- Lines 183-189: the `--delete-cache` step. `os.remove` raises
`FileNotFoundError` on a missing path and the surrounding `except`
swallows it, so a missing content file aborts the pair before the token
file is removed, and a missing token file leaves the content file already
removed; the "Cache deleted" line is only logged when both removals
succeed. -/
def deleteCachePair (fs : Fs) (filename filename_lastmod : String) :
    Fs × List LogMsg :=
  if fsExists fs filename then
    let fs1 := fsRemove fs filename
    if fsExists fs1 filename_lastmod then
      (fsRemove fs1 filename_lastmod, [⟨.info, "  Cache deleted"⟩])
    else
      (fs1, [])
  else
    (fs, [])

/-- The body of the `for name, source in config["sources"].items()` loop
(lines 156-189) for one source: compute the sidecar paths, fetch, then
either skip ("did not require updating") when the fetch returned `None`
and `--force` is not set, or run the conversion (and the optional cache
deletion). An exception from the fetch propagates. -/
def processSource (w : World) (opts : Opts) (now fontsDir : String)
    (fs : Fs) (src : Source) :
    Except FetchError (Fs × List LogMsg × List Event) :=
  let filename := filenameFor fontsDir src.url
  let filename_lastmod := filename ++ ".lastmod"
  match download w src.url src.name opts now fontsDir fs filename filename_lastmod with
  | .error e => .error e
  | .ok (fs1, logs1, dl) =>
    if dl.isNone && !opts.force then
      .ok (fs1, logs1 ++ [⟨.info, "  " ++ src.name ++ " did not require updating"⟩], [])
    else
      let logs2 := logs1 ++ [⟨.info, "  Import complete"⟩]
      let events := [Event.convert src.name filename]
      if opts.delete_cache then
        let d := deleteCachePair fs1 filename filename_lastmod
        (.ok (d.1, logs2 ++ d.2, events))
      else
        .ok (fs1, logs2, events)

/-- Everything observable about one run: final filesystem, log lines,
conversion events, and the exception that aborted the run if one did. -/
structure RunResult where
  fs : Fs
  logs : List LogMsg
  events : List Event
  err : Option FetchError
deriving DecidableEq

/-- The source loop. An uncaught exception stops the run at the source
that raised it; that source has made no filesystem change and emitted no
log line before raising, because the only raise sites inside
`Downloader.download` precede its first write and its first log call. -/
def runSources (w : World) (opts : Opts) (now fontsDir : String) :
    Fs → List Source → RunResult
  | fs, [] => ⟨fs, [], [], none⟩
  | fs, src :: rest =>
    match processSource w opts now fontsDir fs src with
    | .error e => ⟨fs, [], [], some e⟩
    | .ok (fs1, logs1, ev1) =>
      let r := runSources w opts now fontsDir fs1 rest
      ⟨r.fs, logs1 ++ r.logs, ev1 ++ r.events, r.err⟩

/-- `main` from line 143 on: clear `--no-update` (with a warning) when
`--force` is also set, log the start line, and run the source loop.
Argument parsing, logging configuration, YAML loading and the
`os.makedirs` of `fonts_dir` are outside the model. -/
def runMain (w : World) (opts : Opts) (now fontsDir : String)
    (fs : Fs) (sources : List Source) : RunResult :=
  let warn : List LogMsg :=
    if opts.force && opts.no_update then
      [⟨.warning, "Force (-f) flag overrides --no-update flag"⟩]
    else []
  let opts1 := if opts.force && opts.no_update then { opts with no_update := false } else opts
  let r := runSources w opts1 now fontsDir fs sources
  ⟨r.fs, warn ++ ⟨.info, "Starting load of fonts"⟩ :: r.logs, r.events, r.err⟩

/-! Concrete worlds and inputs used to evaluate the model on the scenarios
of the specification. -/

/-- A remote world: every GET answers 200 with body byte 66 (`B`) and
`Last-Modified: Mon, 01 Jan 2024 00:00:00 GMT`, whatever the
`If-Modified-Since` value. -/
def c1world : World :=
  { localFiles := fun _ => none
  , server := fun _ _ =>
      { status_code := 200, content := [66],
        lastModified := some "Mon, 01 Jan 2024 00:00:00 GMT" } }

/-- A remote world where `https://a.test/A.ttf` answers 404 and every other
URL answers 200. -/
def c2world : World :=
  { localFiles := fun _ => none
  , server := fun url _ =>
      if url = "https://a.test/A.ttf" then
        { status_code := 404, content := [], lastModified := none }
      else
        { status_code := 200, content := [1], lastModified := none } }

/-- Two configured sources, the first of which hits the 404 of `c2world`. -/
def c2sources : List Source :=
  [⟨"a", "https://a.test/A.ttf"⟩, ⟨"b", "https://b.test/B.ttf"⟩]

/-- A world holding one local file `/srv/a.ttf` with stringified
modification time `"1704067200.0"` and bytes `[1, 2, 3]`, reachable as
`file:///srv/a.ttf`; the file never changes. -/
def c3world : World :=
  { localFiles := fun p =>
      if p = "/srv/a.ttf" then some ⟨"1704067200.0", [1, 2, 3]⟩ else none
  , server := fun _ _ => { status_code := 200, content := [], lastModified := none } }

/-- A remote world whose server always answers 304 (the remote is
unchanged and honours the conditional header). -/
def c3world304 : World :=
  { localFiles := fun _ => none
  , server := fun _ _ => { status_code := 304, content := [], lastModified := none } }

/-- A cache directory that already holds both sidecar files for
`R.ttf`. -/
def c3fsCached : Fs :=
  [("fonts/R.ttf", .bin [9]), ("fonts/R.ttf.lastmod", .txt "tok")]

/-- A remote world that always answers 204: a status other than 200 and
304 that `raise_for_status` lets through, so `Downloader.download`
reaches its unexpected-status branch and returns `None`. -/
def c4world : World :=
  { localFiles := fun _ => none
  , server := fun _ _ => { status_code := 204, content := [], lastModified := none } }

/-- A remote world that answers 200 with body `[7]` when no
`If-Modified-Since` header is sent, and 304 when one is sent and equals
`"LM"` (a conditional-request-honouring server whose resource is
unchanged); any other conditional value gets 200. -/
def c6world : World :=
  { localFiles := fun _ => none
  , server := fun _ ims =>
      if ims = some "LM" then
        { status_code := 304, content := [], lastModified := none }
      else
        { status_code := 200, content := [7], lastModified := some "LM" } }

/-- A world agreeing with `c6world` on unconditional requests but
answering 404 to every conditional one. -/
def c6worldB : World :=
  { localFiles := fun _ => none
  , server := fun _ ims =>
      match ims with
      | none => { status_code := 200, content := [7], lastModified := some "LM" }
      | some _ => { status_code := 404, content := [], lastModified := none } }

/-- A cache directory whose stored token for `A.ttf` is exactly the
validator `"LM"` that `c6world` considers current. -/
def c6fsCached : Fs :=
  [("fonts/A.ttf", .bin [5]), ("fonts/A.ttf.lastmod", .txt "LM")]

/-- A cache directory holding only the token sidecar file. -/
def c8fsTokenOnly : Fs :=
  [("fonts/A.ttf.lastmod", .txt "tok")]

/-- A world used for runs whose fetch outcome is irrelevant. -/
def c10world : World :=
  { localFiles := fun _ => none
  , server := fun _ _ => { status_code := 200, content := [], lastModified := none } }

/-! Helper lemmas about the unfolding of `download`, shared by several of
the theorems below. -/

/-- Unfolding `Downloader.download` on the fresh path: when `--no-update`
is off and `_download` (called with the header the code computes) answers
200 with body `c`, the function writes the body to the content file, the
wall-clock string to the token file, logs the byte count, and returns the
response. -/
theorem download_fresh_writes (w : World) (url name : String) (opts : Opts)
    (now fontsDir : String) (fs : Fs) (f fl : String) (c : List Nat) (lm : Option String)
    (hnu : opts.no_update = false)
    (h200 : _download w url (if opts.force then none else (loadCache fs f fl).2)
              = .ok { status_code := 200, content := some c, last_modified := lm }) :
    download w url name opts now fontsDir fs f fl
      = .ok (fsWrite (fsWrite fs f (.bin c)) fl (.txt now),
             [⟨.info, "  Download complete (" ++ toString c.length ++ " bytes)"⟩],
             some { status_code := 200, content := some c, last_modified := lm }) := by
  simp [download, hnu, h200]

/-! The claims. -/

/-- C1. The claim says that after a fresh (HTTP 200) outcome
`Downloader.download` writes the response body to the content file and the
fetch result's freshness token (for the remote transport, the
`Last-Modified` validator, here `"Mon, 01 Jan 2024 00:00:00 GMT"`) to the
token file. The code does write the body, but line 92 writes
`datetime.now().strftime("%Y-%m-%d %H:%M:%S")` to the token file instead
of the validator carried by the result: with the clock at
`2024-06-01 12:00:00`, the token file ends up holding that wall-clock
string, which differs from the validator. This contradicts the
conditional-fetch machinery of the same file: the `file://` branch of
`_download` (line 48) recognises a cache as current only when the stored
token equals `str(os.path.getmtime(...))`, which the wall-clock string can
never be, and an HTTP `If-Modified-Since` carrying that format is not a
valid HTTP date. -/
theorem c1_token_file_gets_wall_clock_not_validator :
    download c1world "https://example.test/Roboto.ttf" "roboto" {} "2024-06-01 12:00:00"
        "fonts" [] "fonts/Roboto.ttf" "fonts/Roboto.ttf.lastmod"
      = .ok ([("fonts/Roboto.ttf.lastmod", .txt "2024-06-01 12:00:00"),
              ("fonts/Roboto.ttf", .bin [66])],
             [⟨.info, "  Download complete (1 bytes)"⟩],
             some { status_code := 200, content := some [66],
                    last_modified := some "Mon, 01 Jan 2024 00:00:00 GMT" })
    ∧ FileData.txt "2024-06-01 12:00:00"
        ≠ FileData.txt "Mon, 01 Jan 2024 00:00:00 GMT" :=
  ⟨rfl, by decide⟩

/-- C2. The claim says a remote source answering an HTTP status other than
200/304 (e.g. 404) gets a critical log, its conversion is skipped, and the
run proceeds to the remaining sources without raising. In the code,
`response.raise_for_status()` (line 54) raises an uncaught `HTTPError` for
every 4xx/5xx status, so a 404 aborts the whole run: no critical line is
logged (the unexpected-status branch of lines 96-99 is reachable only for
non-error statuses below 400) and the remaining sources are never
processed. Here the first of two sources answers 404: the run ends with
the propagated error, only the start line logged, and no conversion event
for either source. -/
theorem c2_404_raises_and_aborts_run :
    runMain c2world {} "2024-06-01 12:00:00" "fonts" [] c2sources
      = ⟨[], [⟨.info, "Starting load of fonts"⟩], [], some (.httpError 404)⟩ :=
  rfl

/-- C3. The claim says a second fetch of an unchanged source sends the
stored token, receives 304, rewrites nothing, and skips the conversion.
Two slips in the code break this. First, because line 92 stored the
wall-clock string rather than the fetch's validator, the second run's
conditional header can never match: for a `file://` source whose file is
unchanged, the second `download` receives a fresh 200 again and rewrites
both sidecar files (the token file changes from the first run's clock
string to the second run's). Second, even when a 304 does arrive (a
conditional-header-honouring remote), `main` runs the conversion anyway:
line 164 skips (and logs "did not require updating") only when `download`
returned `None`, and on 304 `download` returns the cached entry, which is
not `None`. -/
theorem c3_second_run_refetches_and_still_converts :
    download c3world "file:///srv/a.ttf" "a" {} "2024-01-02 12:00:00" "fonts"
        [("fonts/a.ttf.lastmod", .txt "2024-01-01 12:00:00"),
         ("fonts/a.ttf", .bin [1, 2, 3])]
        "fonts/a.ttf" "fonts/a.ttf.lastmod"
      = .ok ([("fonts/a.ttf.lastmod", .txt "2024-01-02 12:00:00"),
              ("fonts/a.ttf", .bin [1, 2, 3]),
              ("fonts/a.ttf.lastmod", .txt "2024-01-01 12:00:00"),
              ("fonts/a.ttf", .bin [1, 2, 3])],
             [⟨.info, "  Download complete (3 bytes)"⟩],
             some { status_code := 200, content := some [1, 2, 3],
                    last_modified := some "1704067200.0" })
    ∧ FileData.txt "2024-01-02 12:00:00" ≠ FileData.txt "2024-01-01 12:00:00"
    ∧ processSource c3world304 {} "2024-01-02 12:00:00" "fonts" c3fsCached
        ⟨"r", "https://x.test/R.ttf"⟩
        = .ok (c3fsCached, [⟨.info, "  Import complete"⟩],
               [Event.convert "r" "fonts/R.ttf"]) :=
  ⟨rfl, by decide, rfl⟩

/-- C4, counterexample. The claim says that whenever `Downloader.download`
returns `None` the conversion step is skipped, regardless of the mode
flags, force included. With `--force` set and a source answering 204 (so
that `download` logs the unexpected status and returns `None`), the guard
`download == None and (not opts.force)` on line 164 is false and the
conversion step runs anyway. -/
theorem c4_force_converts_after_fatal_fetch :
    download c4world "https://x.test/A.ttf" "a" { force := true } "t" "fonts" []
        "fonts/A.ttf" "fonts/A.ttf.lastmod"
      = .ok ([], [⟨.critical, "  Unexpected response code (204"⟩,
                  ⟨.critical, "  Content a was not downloaded"⟩], none)
    ∧ (runMain c4world { force := true } "t" "fonts" [] [⟨"a", "https://x.test/A.ttf"⟩]).events
        = [Event.convert "a" "fonts/A.ttf"] :=
  ⟨rfl, rfl⟩

/-- C4, amended: for every source on which `Downloader.download` returns
`None`, provided the force flag is not set, the conversion step for that
source is skipped (only the "did not require updating" line is logged, no
conversion event), and the run continues with the remaining sources. -/
theorem c4_fatal_fetch_skips_conversion_without_force
    (w : World) (opts : Opts) (now fontsDir : String) (fs fs1 : Fs)
    (logs1 : List LogMsg) (src : Source) (rest : List Source)
    (hforce : opts.force = false)
    (hdl : download w src.url src.name opts now fontsDir fs
             (filenameFor fontsDir src.url) (filenameFor fontsDir src.url ++ ".lastmod")
             = .ok (fs1, logs1, none)) :
    processSource w opts now fontsDir fs src
      = .ok (fs1, logs1 ++ [⟨.info, "  " ++ src.name ++ " did not require updating"⟩], [])
    ∧ runSources w opts now fontsDir fs (src :: rest)
      = ⟨(runSources w opts now fontsDir fs1 rest).fs,
         (logs1 ++ [⟨.info, "  " ++ src.name ++ " did not require updating"⟩])
           ++ (runSources w opts now fontsDir fs1 rest).logs,
         (runSources w opts now fontsDir fs1 rest).events,
         (runSources w opts now fontsDir fs1 rest).err⟩ := by
  have h1 : processSource w opts now fontsDir fs src
      = .ok (fs1, logs1 ++ [⟨.info, "  " ++ src.name ++ " did not require updating"⟩], []) := by
    simp [processSource, hdl, hforce]
  exact ⟨h1, by simp [runSources, h1]⟩

/-- C4, witness: the amended theorem applied to a 204-answering world with
default flags and one further source, both of which are skipped and the
run runs to completion. -/
theorem c4_fatal_fetch_skips_conversion_without_force_witness :
    processSource c4world {} "t" "fonts" [] ⟨"a", "https://x.test/A.ttf"⟩
      = .ok ([], [⟨.critical, "  Unexpected response code (204"⟩,
                  ⟨.critical, "  Content a was not downloaded"⟩,
                  ⟨.info, "  a did not require updating"⟩], [])
    ∧ runSources c4world {} "t" "fonts" []
        [⟨"a", "https://x.test/A.ttf"⟩, ⟨"b", "https://x.test/B.ttf"⟩]
      = ⟨[], [⟨.critical, "  Unexpected response code (204"⟩,
              ⟨.critical, "  Content a was not downloaded"⟩,
              ⟨.info, "  a did not require updating"⟩,
              ⟨.critical, "  Unexpected response code (204"⟩,
              ⟨.critical, "  Content b was not downloaded"⟩,
              ⟨.info, "  b did not require updating"⟩], [], none⟩ :=
  c4_fatal_fetch_skips_conversion_without_force c4world {} "t" "fonts" [] []
    [⟨.critical, "  Unexpected response code (204"⟩,
     ⟨.critical, "  Content a was not downloaded"⟩]
    ⟨"a", "https://x.test/A.ttf"⟩ [⟨"b", "https://x.test/B.ttf"⟩] rfl rfl

/-- C5, counterexample. The claim says `Downloader.download` reads and
writes no persistent filesystem state itself and that any persisting is
done by its caller. In fact the function body itself performs the writes:
called on an empty directory against a 200-answering world, it returns a
filesystem holding both sidecar files that it wrote on lines 89-92 (the
caller writes nothing). -/
theorem c5_download_itself_writes_files :
    download c1world "https://example.test/Roboto.ttf" "roboto" {} "2024-06-01 12:00:00"
        "fonts" [] "fonts/Roboto.ttf" "fonts/Roboto.ttf.lastmod"
      = .ok ([("fonts/Roboto.ttf.lastmod", .txt "2024-06-01 12:00:00"),
              ("fonts/Roboto.ttf", .bin [66])],
             [⟨.info, "  Download complete (1 bytes)"⟩],
             some { status_code := 200, content := some [66],
                    last_modified := some "Mon, 01 Jan 2024 00:00:00 GMT" })
    ∧ ([("fonts/Roboto.ttf.lastmod", FileData.txt "2024-06-01 12:00:00"),
        ("fonts/Roboto.ttf", FileData.bin [66])] : Fs) ≠ ([] : Fs) :=
  ⟨rfl, by decide⟩

/-- C5, amended: `Downloader.download` itself reads the cache sidecar
files and, on a fresh (200) outcome, itself writes the content bytes and
the token to the two sidecar files; apart from the optional
`--delete-cache` removal, the caller persists nothing further (the loop
body returns the filesystem exactly as `download` left it). -/
theorem c5_download_owns_persistence
    (w : World) (url name : String) (opts : Opts) (now fontsDir : String)
    (fs : Fs) (f fl : String) (c : List Nat) (lm : Option String)
    (hnu : opts.no_update = false)
    (hf : f = filenameFor fontsDir url) (hfl : fl = f ++ ".lastmod")
    (h200 : _download w url (if opts.force then none else (loadCache fs f fl).2)
              = .ok { status_code := 200, content := some c, last_modified := lm }) :
    download w url name opts now fontsDir fs f fl
      = .ok (fsWrite (fsWrite fs f (.bin c)) fl (.txt now),
             [⟨.info, "  Download complete (" ++ toString c.length ++ " bytes)"⟩],
             some { status_code := 200, content := some c, last_modified := lm })
    ∧ (opts.delete_cache = false →
        processSource w opts now fontsDir fs ⟨name, url⟩
          = .ok (fsWrite (fsWrite fs f (.bin c)) fl (.txt now),
                 [⟨.info, "  Download complete (" ++ toString c.length ++ " bytes)"⟩,
                  ⟨.info, "  Import complete"⟩],
                 [Event.convert name f])) := by
  have h1 := download_fresh_writes w url name opts now fontsDir fs f fl c lm hnu h200
  refine ⟨h1, fun hdc => ?_⟩
  subst hf hfl
  simp [processSource, h1, hdc]

/-- C5, witness: the amended theorem at the `c1world` scenario with
default flags; `download` returns the two writes it made and the loop body
hands the filesystem on unchanged. -/
theorem c5_download_owns_persistence_witness :
    download c1world "https://example.test/Roboto.ttf" "roboto" {} "2024-06-01 12:00:00"
        "fonts" [] "fonts/Roboto.ttf" "fonts/Roboto.ttf.lastmod"
      = .ok ([("fonts/Roboto.ttf.lastmod", .txt "2024-06-01 12:00:00"),
              ("fonts/Roboto.ttf", .bin [66])],
             [⟨.info, "  Download complete (1 bytes)"⟩],
             some { status_code := 200, content := some [66],
                    last_modified := some "Mon, 01 Jan 2024 00:00:00 GMT" })
    ∧ processSource c1world {} "2024-06-01 12:00:00" "fonts" []
        ⟨"roboto", "https://example.test/Roboto.ttf"⟩
      = .ok ([("fonts/Roboto.ttf.lastmod", .txt "2024-06-01 12:00:00"),
              ("fonts/Roboto.ttf", .bin [66])],
             [⟨.info, "  Download complete (1 bytes)"⟩, ⟨.info, "  Import complete"⟩],
             [Event.convert "roboto" "fonts/Roboto.ttf"]) :=
  ⟨(c5_download_owns_persistence c1world "https://example.test/Roboto.ttf" "roboto" {}
      "2024-06-01 12:00:00" "fonts" [] "fonts/Roboto.ttf" "fonts/Roboto.ttf.lastmod"
      [66] (some "Mon, 01 Jan 2024 00:00:00 GMT") rfl rfl rfl rfl).1,
   (c5_download_owns_persistence c1world "https://example.test/Roboto.ttf" "roboto" {}
      "2024-06-01 12:00:00" "fonts" [] "fonts/Roboto.ttf" "fonts/Roboto.ttf.lastmod"
      [66] (some "Mon, 01 Jan 2024 00:00:00 GMT") rfl rfl rfl rfl).2 rfl⟩

/-- C6. When the force flag is set (and `--no-update` is therefore off,
since `main` clears it on line 144 before any source is processed), no
freshness token is attached to the outgoing request: the fetch consults
the transport only with an absent `If-Modified-Since`, so any two worlds
whose transport agrees on the unconditional request give the identical
outcome; and whenever the unconditional request answers 200 with body `c`,
the fetch yields that fresh content and writes it, whatever token the
cache held. -/
theorem c6_force_omits_token_and_fetches_fresh
    (w w2 : World) (url name : String) (opts : Opts) (now fontsDir : String)
    (fs : Fs) (f fl : String)
    (hforce : opts.force = true) (hnu : opts.no_update = false) :
    (_download w2 url none = _download w url none →
      download w2 url name opts now fontsDir fs f fl
        = download w url name opts now fontsDir fs f fl)
    ∧ (∀ (c : List Nat) (lm : Option String),
        _download w url none = .ok { status_code := 200, content := some c, last_modified := lm } →
        download w url name opts now fontsDir fs f fl
          = .ok (fsWrite (fsWrite fs f (.bin c)) fl (.txt now),
                 [⟨.info, "  Download complete (" ++ toString c.length ++ " bytes)"⟩],
                 some { status_code := 200, content := some c, last_modified := lm })) := by
  constructor
  · intro h
    simp only [download, hforce, hnu, Bool.false_and, if_true, if_false, h]
  · intro c lm h200
    refine download_fresh_writes w url name opts now fontsDir fs f fl c lm hnu ?_
    simpa [hforce] using h200

/-- C6, witness: against `c6world`, whose resource is unchanged relative
to the stored token `"LM"` (a conditional request carrying it would
receive 304), a forced fetch still yields fresh 200 content, and swapping
in `c6worldB` (which answers conditional requests with 404) changes
nothing because no token is attached. -/
theorem c6_force_omits_token_and_fetches_fresh_witness :
    (download c6worldB "https://x.test/A.ttf" "a" { force := true } "t" "fonts"
        c6fsCached "fonts/A.ttf" "fonts/A.ttf.lastmod"
      = download c6world "https://x.test/A.ttf" "a" { force := true } "t" "fonts"
          c6fsCached "fonts/A.ttf" "fonts/A.ttf.lastmod")
    ∧ download c6world "https://x.test/A.ttf" "a" { force := true } "t" "fonts"
        c6fsCached "fonts/A.ttf" "fonts/A.ttf.lastmod"
      = .ok (fsWrite (fsWrite c6fsCached "fonts/A.ttf" (.bin [7]))
               "fonts/A.ttf.lastmod" (.txt "t"),
             [⟨.info, "  Download complete (1 bytes)"⟩],
             some { status_code := 200, content := some [7], last_modified := some "LM" }) :=
  ⟨(c6_force_omits_token_and_fetches_fresh c6world c6worldB "https://x.test/A.ttf" "a"
      { force := true } "t" "fonts" c6fsCached "fonts/A.ttf" "fonts/A.ttf.lastmod"
      rfl rfl).1 rfl,
   (c6_force_omits_token_and_fetches_fresh c6world c6worldB "https://x.test/A.ttf" "a"
      { force := true } "t" "fonts" c6fsCached "fonts/A.ttf" "fonts/A.ttf.lastmod"
      rfl rfl).2 [7] (some "LM") rfl⟩

/-- C7. When the skip-network flag is set and both sidecar files exist,
`Downloader.download` returns the cached entry, unchanged filesystem and
no log lines — and the result is one and the same for every world, i.e.
no transport call occurs for any possible transport behaviour. -/
theorem c7_no_update_returns_cache_without_transport
    (url name : String) (opts : Opts) (now fontsDir : String)
    (fs : Fs) (f fl : String) (c t : FileData)
    (hnu : opts.no_update = true)
    (hc : fsLookup fs f = some c) (ht : fsLookup fs fl = some t) :
    ∀ w : World, download w url name opts now fontsDir fs f fl
      = .ok (fs, [], some { status_code := 200, content := some (bytesOf c),
                            last_modified := some (textOf t) }) := by
  intro w
  simp [download, loadCache, hc, ht, hnu]

/-- C7, witness: with `--no-update` and the cached pair present, the
result against the always-404-on-conditional world `c6worldB` is the
cached entry itself. -/
theorem c7_no_update_returns_cache_without_transport_witness :
    download c6worldB "https://x.test/A.ttf" "a" { no_update := true } "t" "fonts"
        c6fsCached "fonts/A.ttf" "fonts/A.ttf.lastmod"
      = .ok (c6fsCached, [], some { status_code := 200, content := some [5],
                                    last_modified := some "LM" }) :=
  c7_no_update_returns_cache_without_transport "https://x.test/A.ttf" "a"
    { no_update := true } "t" "fonts" c6fsCached "fonts/A.ttf" "fonts/A.ttf.lastmod"
    (.bin [5]) (.txt "LM") rfl rfl rfl c6worldB

/-- C8. A cache entry is loaded as a candidate iff both sidecar files
exist; and when either is missing, `Downloader.download` behaves exactly
as on an empty cache directory: same log lines, same return value, and a
final filesystem that is the empty-directory run's writes laid over the
existing one (no conditional header is sent and no cached fallback is
used). -/
theorem c8_cache_valid_iff_both_sidecars (fs : Fs) (f fl : String) :
    ((loadCache fs f fl).1.isSome = true ↔ (fsExists fs f = true ∧ fsExists fs fl = true))
    ∧ ((fsExists fs f = false ∨ fsExists fs fl = false) →
       ∀ (w : World) (url name : String) (opts : Opts) (now fontsDir : String),
         download w url name opts now fontsDir fs f fl
           = (download w url name opts now fontsDir [] f fl).map
               (fun out => (out.1 ++ fs, out.2))) := by
  constructor
  · unfold loadCache fsExists
    cases hc : fsLookup fs f <;> cases ht : fsLookup fs fl <;> simp
  · intro hmiss w url name opts now fontsDir
    have hload : loadCache fs f fl = (none, none) := by
      unfold loadCache
      cases hc : fsLookup fs f <;> cases ht : fsLookup fs fl <;> simp_all [fsExists]
    have hload0 : loadCache ([] : Fs) f fl = (none, none) := rfl
    simp only [download, hload, hload0]
    simp only [Option.isSome_none, Bool.and_false, Bool.if_false_right,
      Bool.and_true, ite_self]
    cases hr : _download w url none with
    | error e => rfl
    | ok response =>
      by_cases h200 : response.status_code = 200
      · simp [Except.map, h200, fsWrite]
      · by_cases h304 : response.status_code = 304
        · simp [Except.map, h200, h304]
        · simp [Except.map, h200, h304]

/-- C8, witness: with only the token file present, no candidate is loaded
and the fetch against the 404-on-conditional world `c6worldB` proceeds as
if uncached (unconditional request, fresh 200, writes lay over the lone
token file). -/
theorem c8_cache_valid_iff_both_sidecars_witness :
    ((loadCache c8fsTokenOnly "fonts/A.ttf" "fonts/A.ttf.lastmod").1.isSome = true
      ↔ (fsExists c8fsTokenOnly "fonts/A.ttf" = true
         ∧ fsExists c8fsTokenOnly "fonts/A.ttf.lastmod" = true))
    ∧ download c6worldB "https://x.test/A.ttf" "a" {} "t" "fonts" c8fsTokenOnly
        "fonts/A.ttf" "fonts/A.ttf.lastmod"
      = (download c6worldB "https://x.test/A.ttf" "a" {} "t" "fonts" []
          "fonts/A.ttf" "fonts/A.ttf.lastmod").map
          (fun out => (out.1 ++ c8fsTokenOnly, out.2)) :=
  ⟨(c8_cache_valid_iff_both_sidecars c8fsTokenOnly "fonts/A.ttf" "fonts/A.ttf.lastmod").1,
   (c8_cache_valid_iff_both_sidecars c8fsTokenOnly "fonts/A.ttf" "fonts/A.ttf.lastmod").2
     (Or.inl rfl) c6worldB "https://x.test/A.ttf" "a" {} "t" "fonts"⟩

/-- C9. When `--delete-cache` runs its deletion pair with the content file
missing but the token file present, `os.remove(filename)` raises
`FileNotFoundError`, the `except` swallows it, and the token-file removal
on line 186 never runs: the filesystem is returned unchanged (no "Cache
deleted" line) and the lone token file is still on disk. -/
theorem c9_lone_token_file_survives_delete (fs : Fs) (f fl : String)
    (hf : fsExists fs f = false) (ht : fsExists fs fl = true) :
    deleteCachePair fs f fl = (fs, [])
    ∧ fsExists (deleteCachePair fs f fl).1 fl = true := by
  have h1 : deleteCachePair fs f fl = (fs, []) := by simp [deleteCachePair, hf]
  exact ⟨h1, by rw [h1]; exact ht⟩

/-- C9, witness: the deletion pair on a directory holding only
`fonts/A.ttf.lastmod` leaves it exactly as it was. -/
theorem c9_lone_token_file_survives_delete_witness :
    deleteCachePair c8fsTokenOnly "fonts/A.ttf" "fonts/A.ttf.lastmod" = (c8fsTokenOnly, [])
    ∧ fsExists (deleteCachePair c8fsTokenOnly "fonts/A.ttf" "fonts/A.ttf.lastmod").1
        "fonts/A.ttf.lastmod" = true :=
  c9_lone_token_file_survives_delete c8fsTokenOnly "fonts/A.ttf" "fonts/A.ttf.lastmod" rfl rfl

/-- C10, counterexample. The claim says a run with both `--force` and
`--no-update` behaves identically to a run with `--force` alone. The flag
is indeed cleared before any source is processed, but line 145 also logs
`Force (-f) flag overrides --no-update flag`, so the two runs' outputs are
not identical: already on an empty source list they differ by that
warning line. -/
theorem c10_combined_flags_run_differs_by_warning :
    runMain c10world { force := true, no_update := true } "t" "fonts" [] []
      ≠ runMain c10world { force := true } "t" "fonts" [] [] := by
  decide

/-- C10, amended: on a run with both `--force` and `--no-update`, the
no-update flag is cleared before any source is processed, and the run is
identical to the run with `--force` alone except that one warning line is
logged first. -/
theorem c10_no_update_cleared_modulo_warning
    (w : World) (opts : Opts) (now fontsDir : String) (fs : Fs) (srcs : List Source)
    (hf : opts.force = true) (hn : opts.no_update = true) :
    runMain w opts now fontsDir fs srcs
      = { runMain w { opts with no_update := false } now fontsDir fs srcs with
          logs := ⟨.warning, "Force (-f) flag overrides --no-update flag"⟩
                  :: (runMain w { opts with no_update := false } now fontsDir fs srcs).logs } := by
  simp [runMain, hf, hn]

/-- C10, witness: the amended theorem on a one-source run against
`c10world`. -/
theorem c10_no_update_cleared_modulo_warning_witness :
    runMain c10world { force := true, no_update := true } "t" "fonts" []
        [⟨"a", "https://x.test/A.ttf"⟩]
      = { runMain c10world { force := true } "t" "fonts" [] [⟨"a", "https://x.test/A.ttf"⟩] with
          logs := ⟨.warning, "Force (-f) flag overrides --no-update flag"⟩
                  :: (runMain c10world { force := true } "t" "fonts" []
                        [⟨"a", "https://x.test/A.ttf"⟩]).logs } :=
  c10_no_update_cleared_modulo_warning c10world { force := true, no_update := true }
    "t" "fonts" [] [⟨"a", "https://x.test/A.ttf"⟩] rfl rfl

end GetFonts
